import Mathlib

/-!
Verification of the LLM provider client in `models/gpt_model.py`
(`GPTModel.__init__`, `GPTModel.generate`, `GPTModel.generate_stream`).

The embedding models byte strings as `List Char` (one `Char` per byte of
the wire; the `utf-8` decode in the source is applied only to whole
reassembled lines, so it is modelled as the identity on the line).
JSON values are an inductive type and `json.loads` is an executable
fuel-based recursive-descent parser following Python's `json` grammar
(objects, arrays, strings with escapes, strict numbers, `true`/`false`/
`null`, and the `NaN`/`Infinity` extensions that `json.loads` accepts by
default).  Fallible Python expressions are translated to `Except` values
whose error tags name the Python exception class the source would raise.
-/

/-- JSON values as produced by `json.loads`.  Numbers keep their source
lexeme (Python turns them into int/float; only truthiness of the value is
ever consulted by the code under verification, which the lexeme
determines).  Objects keep their key/value pairs in parse order; lookup is
last-occurrence-wins, matching Python dict construction. -/
inductive Json where
  | null : Json
  | bool (b : Bool) : Json
  | num (lexeme : List Char) : Json
  | str (s : List Char) : Json
  | arr (xs : List Json) : Json
  | obj (kvs : List (List Char × Json)) : Json

/-- Whitespace accepted between JSON tokens by Python's `json` module. -/
def isJsonWs (c : Char) : Bool :=
  c == ' ' || c == '\t' || c == '\n' || c == '\r'

def skipWs (cs : List Char) : List Char :=
  cs.dropWhile isJsonWs

def hexVal (c : Char) : Option Nat :=
  if '0' ≤ c ∧ c ≤ '9' then some (c.toNat - '0'.toNat)
  else if 'a' ≤ c ∧ c ≤ 'f' then some (c.toNat - 'a'.toNat + 10)
  else if 'A' ≤ c ∧ c ≤ 'F' then some (c.toNat - 'A'.toNat + 10)
  else none

/-- Body of a JSON string after the opening quote: strict mode (raw
control characters are rejected), with the standard escapes. -/
def parseStrAux (acc : List Char) : List Char → Option (List Char × List Char)
  | [] => none
  | c :: rest =>
    if c == '"' then some (acc.reverse, rest)
    else if c == '\\' then
      match rest with
      | [] => none
      | e :: rest2 =>
        if e == '"' then parseStrAux ('"' :: acc) rest2
        else if e == '\\' then parseStrAux ('\\' :: acc) rest2
        else if e == '/' then parseStrAux ('/' :: acc) rest2
        else if e == 'b' then parseStrAux ('\x08' :: acc) rest2
        else if e == 'f' then parseStrAux ('\x0c' :: acc) rest2
        else if e == 'n' then parseStrAux ('\n' :: acc) rest2
        else if e == 'r' then parseStrAux ('\x0d' :: acc) rest2
        else if e == 't' then parseStrAux ('\t' :: acc) rest2
        else if e == 'u' then
          match rest2 with
          | h1 :: h2 :: h3 :: h4 :: rest3 =>
            match hexVal h1, hexVal h2, hexVal h3, hexVal h4 with
            | some a, some b, some c2, some d =>
              parseStrAux (Char.ofNat (a * 4096 + b * 256 + c2 * 16 + d) :: acc) rest3
            | _, _, _, _ => none
          | _ => none
        else none
    else if c.toNat < 32 then none
    else parseStrAux (c :: acc) rest

def numDigits (cs : List Char) : List Char × List Char :=
  (cs.takeWhile Char.isDigit, cs.dropWhile Char.isDigit)

/-- Integer part of Python's JSON number regex: `0` or a nonzero digit
followed by digits (no leading zeros). -/
def parseIntPart : List Char → Option (List Char × List Char)
  | [] => none
  | c :: r =>
    if c == '0' then some (['0'], r)
    else if c.isDigit then
      some (c :: (numDigits r).1, (numDigits r).2)
    else none

/-- Optional fractional part `.[0-9]+`; unmatched input is left in place. -/
def parseFracPart (lx : List Char) (cs : List Char) : List Char × List Char :=
  match cs with
  | '.' :: r =>
    match numDigits r with
    | ([], _) => (lx, cs)
    | (ds, r2) => (lx ++ '.' :: ds, r2)
  | _ => (lx, cs)

/-- Optional exponent part `[eE][+-]?[0-9]+`; unmatched input is left in
place. -/
def parseExpPart (lx : List Char) (cs : List Char) : List Char × List Char :=
  match cs with
  | c :: r =>
    if c == 'e' || c == 'E' then
      match r with
      | s :: r2 =>
        if s == '+' || s == '-' then
          match numDigits r2 with
          | ([], _) => (lx, cs)
          | (ds, r3) => (lx ++ c :: s :: ds, r3)
        else
          match numDigits r with
          | ([], _) => (lx, cs)
          | (ds, r3) => (lx ++ c :: ds, r3)
      | [] => (lx, cs)
    else (lx, cs)
  | [] => (lx, cs)

def parseNumTail (cs : List Char) : Option (List Char × List Char) :=
  match parseIntPart cs with
  | none => none
  | some (ip, r) =>
    match parseFracPart ip r with
    | (lx2, r2) =>
      match parseExpPart lx2 r2 with
      | (lx3, r3) => some (lx3, r3)

def parseNumber : List Char → Option (List Char × List Char)
  | '-' :: r =>
    match parseNumTail r with
    | some (lx, r2) => some ('-' :: lx, r2)
    | none => none
  | cs => parseNumTail cs

mutual

/-- One JSON value, dispatching on the first non-whitespace character the
way Python's scanner does.  The fuel argument bounds recursion depth; the
caller supplies fuel exceeding any depth reachable from the input. -/
def parseValue : Nat → List Char → Option (Json × List Char)
  | 0, _ => none
  | Nat.succ fuel, cs =>
    match skipWs cs with
    | [] => none
    | c :: rest =>
      if c == '\x7b' then
        match skipWs rest with
        | '\x7d' :: r2 => some (.obj [], r2)
        | r2 => parseMembers fuel r2 []
      else if c == '[' then
        match skipWs rest with
        | ']' :: r2 => some (.arr [], r2)
        | r2 => parseElems fuel r2 []
      else if c == '"' then
        match parseStrAux [] rest with
        | some (s, r) => some (.str s, r)
        | none => none
      else if c == 't' then
        match rest with
        | 'r' :: 'u' :: 'e' :: r => some (.bool true, r)
        | _ => none
      else if c == 'f' then
        match rest with
        | 'a' :: 'l' :: 's' :: 'e' :: r => some (.bool false, r)
        | _ => none
      else if c == 'n' then
        match rest with
        | 'u' :: 'l' :: 'l' :: r => some (.null, r)
        | _ => none
      else if c == 'N' then
        match rest with
        | 'a' :: 'N' :: r => some (.num ('N' :: 'a' :: 'N' :: []), r)
        | _ => none
      else if c == 'I' then
        match rest with
        | 'n' :: 'f' :: 'i' :: 'n' :: 'i' :: 't' :: 'y' :: r =>
          some (.num ("Infinity".toList), r)
        | _ => none
      else if c == '-' then
        match rest with
        | 'I' :: 'n' :: 'f' :: 'i' :: 'n' :: 'i' :: 't' :: 'y' :: r =>
          some (.num ("-Infinity".toList), r)
        | _ =>
          match parseNumber (c :: rest) with
          | some (lx, r) => some (.num lx, r)
          | none => none
      else
        match parseNumber (c :: rest) with
        | some (lx, r) => some (.num lx, r)
        | none => none

/-- Array elements after the first has been reached (the empty array is
handled by `parseValue`).  Trailing commas are rejected, as in Python. -/
def parseElems : Nat → List Char → List Json → Option (Json × List Char)
  | 0, _, _ => none
  | Nat.succ fuel, cs, acc =>
    match parseValue fuel cs with
    | none => none
    | some (v, r) =>
      match skipWs r with
      | ',' :: r2 => parseElems fuel r2 (v :: acc)
      | ']' :: r2 => some (.arr (v :: acc).reverse, r2)
      | _ => none

/-- Object members after the first key has been reached (the empty object
is handled by `parseValue`).  Keys must be strings. -/
def parseMembers : Nat → List Char → List (List Char × Json) →
    Option (Json × List Char)
  | 0, _, _ => none
  | Nat.succ fuel, cs, acc =>
    match cs with
    | '"' :: r0 =>
      match parseStrAux [] r0 with
      | none => none
      | some (k, r1) =>
        match skipWs r1 with
        | ':' :: r2 =>
          match parseValue fuel r2 with
          | none => none
          | some (v, r3) =>
            match skipWs r3 with
            | ',' :: r4 => parseMembers fuel (skipWs r4) ((k, v) :: acc)
            | '\x7d' :: r4 => some (.obj ((k, v) :: acc).reverse, r4)
            | _ => none
        | _ => none
    | _ => none

end

/-- Python `json.loads`: parse one JSON document and require that only trailing
whitespace remains, else the parse fails (`json.JSONDecodeError`). -/
def jsonLoads (cs : List Char) : Option Json :=
  match parseValue (2 * cs.length + 8) cs with
  | some (v, r) => if skipWs r == [] then some v else none
  | none => none

/-- Python exception classes that escape the code under verification, as
raised by builtin operations: attribute access on a non-dict
(`AttributeError`), subscripting an empty sequence (`IndexError`), a
missing dict key (`KeyError`), subscripting a non-subscriptable or
wrongly-indexed value (`TypeError`), and `json.JSONDecodeError`. -/
inductive DecodeExc where
  | attributeError : DecodeExc
  | indexError : DecodeExc
  | keyError : DecodeExc
  | typeError : DecodeExc
  | jsonDecodeError : DecodeExc
deriving DecidableEq

/-- Python dict lookup on an object built by `json.loads`: later duplicate
keys overwrite earlier ones. -/
def dictLookup (kvs : List (List Char × Json)) (k : List Char) : Option Json :=
  kvs.foldl (fun acc p => if p.1 = k then some p.2 else acc) none

/-- Python `d.get(k, default)` on a parsed-JSON dict. -/
def dictGet (kvs : List (List Char × Json)) (k : List Char) (d : Json) : Json :=
  (dictLookup kvs k).getD d

/-- Attribute access `v.get(k, default)`: only dicts have a `get` attribute; every other
value from `json.loads` raises `AttributeError`. -/
def pyGetAttr (v : Json) (k : List Char) (d : Json) : Except DecodeExc Json :=
  match v with
  | .obj kvs => .ok (dictGet kvs k d)
  | _ => .error .attributeError

/-- Subscripting `v[0]` on a value from `json.loads`: a list yields its head or
`IndexError`; a string yields its first character (as a one-character
string) or `IndexError`; a dict raises `KeyError` (its keys are strings,
never the integer 0); everything else raises `TypeError`. -/
def pySubscriptZero : Json → Except DecodeExc Json
  | .arr [] => .error .indexError
  | .arr (x :: _) => .ok x
  | .str [] => .error .indexError
  | .str (c :: _) => .ok (.str [c])
  | .obj _ => .error .keyError
  | _ => .error .typeError

/-- Subscripting `v[k]` with a string key `k`: a dict yields the entry or `KeyError`;
lists and strings require integer indices (`TypeError`); everything else
is not subscriptable (`TypeError`). -/
def pySubscriptKey (v : Json) (k : List Char) : Except DecodeExc Json :=
  match v with
  | .obj kvs =>
    match dictLookup kvs k with
    | some x => .ok x
    | none => .error .keyError
  | _ => .error .typeError

/-- Truthiness of the mantissa of a number lexeme: false exactly for
numeric zero (`0`, `-0`, `0.00`, `0e9`, ...); `NaN` and `Infinity` are
truthy.  Mirrors Python float/int truthiness for every lexeme the JSON
grammar admits. -/
def numLexemeTruthy (lx : List Char) : Bool :=
  match lx with
  | '-' :: body =>
    if body = "Infinity".toList then true
    else (body.takeWhile (fun c => !(c == 'e' || c == 'E'))).any
      (fun c => c.isDigit && !(c == '0'))
  | body =>
    if body = "NaN".toList || body = "Infinity".toList then true
    else (body.takeWhile (fun c => !(c == 'e' || c == 'E'))).any
      (fun c => c.isDigit && !(c == '0'))

/-- Python truthiness (`if content:`) of a value from `json.loads`. -/
def Json.isTruthy : Json → Bool
  | .null => false
  | .bool b => b
  | .num lx => numLexemeTruthy lx
  | .str s => !s.isEmpty
  | .arr xs => !xs.isEmpty
  | .obj kvs => !kvs.isEmpty

/-- The expression `data.get("choices", [\x7b\x7d])[0].get("delta", \x7b\x7d).get("content", "")`
from `GPTModel.generate_stream` (src/models/gpt_model.py line 106),
with each step's possible exception made explicit. -/
def extractDelta (v : Json) : Except DecodeExc Json :=
  match pyGetAttr v ("choices".toList) (.arr [.obj []]) with
  | .error e => .error e
  | .ok c =>
    match pySubscriptZero c with
    | .error e => .error e
    | .ok x =>
      match pyGetAttr x ("delta".toList) (.obj []) with
      | .error e => .error e
      | .ok dl => pyGetAttr dl ("content".toList) (.str [])

/-- The expression `result["choices"][0]["message"]["content"]` from `GPTModel.generate`
(src/models/gpt_model.py line 62), with each step's possible exception
made explicit. -/
def envelopeExtract (v : Json) : Except DecodeExc Json :=
  match pySubscriptKey v ("choices".toList) with
  | .error e => .error e
  | .ok c =>
    match pySubscriptZero c with
    | .error e => .error e
    | .ok x =>
      match pySubscriptKey x ("message".toList) with
      | .error e => .error e
      | .ok m => pySubscriptKey m ("content".toList)

/-- Whitespace stripped by Python `str.strip()` (the ASCII subset; the
lines under verification only ever end in `\r\n` or `\n`). -/
def isPyWs (c : Char) : Bool :=
  c == ' ' || c == '\t' || c == '\n' || c == '\x0d' || c == '\x0b' || c == '\x0c'

/-- Python `line.strip()`: drop whitespace from both ends. -/
def pyStrip (cs : List Char) : List Char :=
  ((cs.dropWhile isPyWs).reverse.dropWhile isPyWs).reverse

def doneToken : List Char := "data: [DONE]".toList

def dataPfx : List Char := "data: ".toList

/-- What the loop body of `generate_stream` does with one decoded line:
terminate on the sentinel, yield a truthy delta, skip everything else,
or raise (uncaught) when the extraction chain raises; only
`json.JSONDecodeError` is caught, and it produces a silent skip. -/
inductive LineStep where
  | halt : LineStep
  | skip : LineStep
  | yield (c : Json) : LineStep
  | crash (e : DecodeExc) : LineStep

/-- The loop body of `GPTModel.generate_stream` (src/models/gpt_model.py
lines 99-110) applied to one raw line. -/
def stepLine (l : List Char) : LineStep :=
  if pyStrip l = doneToken then .halt
  else if dataPfx.isPrefixOf (pyStrip l) then
    match jsonLoads ((pyStrip l).drop 6) with
    | none => .skip
    | some v =>
      match extractDelta v with
      | .error e => .crash e
      | .ok c => if c.isTruthy then .yield c else .skip
  else .skip

/-- How the line loop of `generate_stream` ended: the `[DONE]` sentinel
(`break`), the transport closing (loop exhausts), or an uncaught
exception from the loop body. -/
inductive StreamEnd where
  | doneSentinel : StreamEnd
  | exhausted : StreamEnd
  | crashed (e : DecodeExc) : StreamEnd
deriving DecidableEq

/-- The line loop of `GPTModel.generate_stream`: the fragments yielded, in
order, and how the loop ended. -/
def decodeLines : List (List Char) → List Json × StreamEnd
  | [] => ([], .exhausted)
  | l :: rest =>
    match stepLine l with
    | .halt => ([], .doneSentinel)
    | .skip => decodeLines rest
    | .crash e => ([], .crashed e)
    | .yield c =>
      match decodeLines rest with
      | (fs, e) => (c :: fs, e)

/-- The delta a single line contributes, if any. -/
def lineYield (l : List Char) : Option Json :=
  match stepLine l with
  | .yield c => some c
  | _ => none

/-- The uncaught exception a single line raises, if any. -/
def lineCrash (l : List Char) : Option DecodeExc :=
  match stepLine l with
  | .crash e => some e
  | _ => none

/-- Whether a line is the `data: [DONE]` sentinel after stripping. -/
def isDoneLine (l : List Char) : Bool :=
  pyStrip l = doneToken

/-- Iteration with `async for line in response.content` drives aiohttp's StreamReader,
whose `readline` buffers raw chunks and yields each logical line through
its `\n` (the trailing partial line is yielded when the transport
closes).  `feedOne acc chunk` consumes one received chunk with `acc` the
(reversed) buffered partial line, returning the completed lines the
iterator can deliver and the new buffer. -/
def feedOne (acc : List Char) : List Char → List (List Char) × List Char
  | [] => ([], acc)
  | c :: cs =>
    if c = '\n' then
      match feedOne [] cs with
      | (ls, a) => (('\n' :: acc).reverse :: ls, a)
    else feedOne (c :: acc) cs

/-- The buffering loop over all received chunks; at end of stream the
remaining partial line, if any, is delivered without its newline. -/
def feedList (acc : List Char) : List (List Char) → List (List Char)
  | [] => if acc.isEmpty then [] else [acc.reverse]
  | chunk :: rest =>
    match feedOne acc chunk with
    | (ls, a) => ls ++ feedList a rest

/-- The logical lines the stream iterator delivers for a chunked body. -/
def feedChunks (chunks : List (List Char)) : List (List Char) :=
  feedList [] chunks

/-- Reference line splitter on an unchunked byte string: each line keeps
its `\n`; a trailing piece without `\n` is a final line of its own. -/
def allLinesAux (acc : List Char) : List Char → List (List Char)
  | [] => if acc.isEmpty then [] else [acc.reverse]
  | c :: cs =>
    if c = '\n' then ('\n' :: acc).reverse :: allLinesAux [] cs
    else allLinesAux (c :: acc) cs

def allLines (s : List Char) : List (List Char) :=
  allLinesAux [] s

/-- The whole streaming decode on the raw chunked body: buffer chunks into
lines, then run the line loop. -/
def decodeStream (chunks : List (List Char)) : List Json × StreamEnd :=
  decodeLines (feedChunks chunks)

/-- The spec's error taxonomy, with each constructor carrying exactly what
the corresponding raise site in `gpt_model.py` puts into the raised
exception.  `configurationError` is the `ValueError` of `__init__`;
`httpStatusError` the bare `Exception` built from the status and the
fully-read body text; `protocolDecodeError` the uncaught exception
escaping envelope or delta extraction (or `response.json()` /
`json.loads`); `transportError` stands for the aiohttp client errors.
The aiohttp transport layer is not part of the repository; its errors are
modelled from the spec: connection failures surface as aiohttp client
exceptions, a class distinct from the others. -/
inductive GPTError where
  | configurationError : GPTError
  | httpStatusError (status : Nat) (body : List Char) : GPTError
  | protocolDecodeError (e : DecodeExc) : GPTError
  | transportError : GPTError

/-- The spec's four error kinds. -/
inductive ErrorKind where
  | configuration : ErrorKind
  | httpStatus : ErrorKind
  | transport : ErrorKind
  | protocolDecode : ErrorKind
deriving DecidableEq

def GPTError.kind : GPTError → ErrorKind
  | .configurationError => .configuration
  | .httpStatusError _ _ => .httpStatus
  | .protocolDecodeError _ => .protocolDecode
  | .transportError => .transport

/-- Python exception classes as seen by a caller catching errors from
`generate` / `generate_stream`. -/
inductive PyExcClass where
  | valueError : PyExcClass
  | exception : PyExcClass
  | clientError : PyExcClass
  | attributeError : PyExcClass
  | indexError : PyExcClass
  | keyError : PyExcClass
  | typeError : PyExcClass
  | jsonDecodeError : PyExcClass
deriving DecidableEq

def DecodeExc.pyClass : DecodeExc → PyExcClass
  | .attributeError => .attributeError
  | .indexError => .indexError
  | .keyError => .keyError
  | .typeError => .typeError
  | .jsonDecodeError => .jsonDecodeError

/-- The exception object a `GPTError` reaches the caller as: its exact
Python class and, for the two raise statements written in the source, the
exact message (messages of builtin exceptions are not modelled). -/
structure RaisedError where
  cls : PyExcClass
  msg : List Char

def toRaised : GPTError → RaisedError
  | .configurationError => ⟨.valueError, "OpenAI API密钥未配置".toList⟩
  | .httpStatusError s b =>
    ⟨.exception, "OpenAI API错误: ".toList ++ (Nat.repr s).toList ++ " - ".toList ++ b⟩
  | .protocolDecodeError e => ⟨e.pyClass, []⟩
  | .transportError => ⟨.clientError, []⟩

/-- A caller-side classifier: recover the error kind from the exact class
of the raised exception alone. -/
def classifyRaised (r : RaisedError) : ErrorKind :=
  match r.cls with
  | .valueError => .configuration
  | .exception => .httpStatus
  | .clientError => .transport
  | _ => .protocolDecode

/-- Modelled from the spec: the external configuration store consumed by
`__init__` through `get_api_key('gpt')` and `get_model_name('gpt')`
(either may be unset), and the proxy settings the missing base class
`AIModel` resolves into `self.proxy` (spec: optional proxy URL, applied
to the secure scheme). -/
structure ConfigManager where
  api_key : Option String
  model_name : Option String
  proxy : Option String

/-- Python falsiness of an optional configuration string (`not x` is true
for both `None` and `""`). -/
def optFalsy (o : Option String) : Bool :=
  match o with
  | none => true
  | some s => s.isEmpty

/-- The state a constructed `GPTModel` instance holds. -/
structure GPTModel where
  api_key : String
  model_name : String
  api_url : String
  proxy : Option String

/-- Constructor `GPTModel.__init__` (src/models/gpt_model.py lines 9-25): resolve the
configuration, fail with `ValueError` when the API key is missing or
empty, default the model name to `"gpt-4-turbo"` when unset.  No network
contact: the body only reads the configuration store. -/
def GPTModel.init (config_manager : ConfigManager) : Except GPTError GPTModel :=
  if optFalsy config_manager.api_key then .error .configurationError
  else .ok
    { api_key := config_manager.api_key.getD ""
      model_name :=
        if optFalsy config_manager.model_name then "gpt-4-turbo"
        else config_manager.model_name.getD ""
      api_url := "https://api.openai.com/v1/chat/completions"
      proxy := config_manager.proxy }

/-- The outbound POST both methods build (src/models/gpt_model.py lines
39-55 and 76-92): endpoint, bearer authorization, JSON body with the
configured model, the prompt as the single user message, and the stream
flag. -/
structure ChatRequest where
  url : String
  authorization : String
  content_type : String
  model : String
  role : String
  content : String
  stream : Bool
  proxy : Option String

def buildRequest (m : GPTModel) (prompt : String) (stream : Bool) : ChatRequest :=
  { url := m.api_url
    authorization := "Bearer " ++ m.api_key
    content_type := "application/json"
    model := m.model_name
    role := "user"
    content := prompt
    stream := stream
    proxy := m.proxy }

/-- The optional callback argument both methods accept.  The parameter is
declared (`callback=None`) and never referenced in either body. -/
abbrev Callback : Type := Option (List Char → List Char)

/-- The HTTP exchange `generate` observes: a status and the full body
text. -/
structure BufferedResponse where
  status : Nat
  body_text : List Char

/-- The HTTP exchange `generate_stream` observes: a status, the body text
read on the error path (`await response.text()`), and the raw chunks of
the body on the success path. -/
structure StreamResponse where
  status : Nat
  body_text : List Char
  chunks : List (List Char)

/-- Method `GPTModel.generate` (src/models/gpt_model.py lines 27-62) given the
response the endpoint returns: non-200 raises the status `Exception`
built from the fully-read body; otherwise `response.json()` parses the
body (`json.JSONDecodeError` on failure) and the envelope extraction
returns the nested content, raising on a shape mismatch. -/
def generate (model : GPTModel) (prompt : String) (resp : BufferedResponse)
    (callback : Callback) : Except GPTError Json :=
  if resp.status ≠ 200 then .error (.httpStatusError resp.status resp.body_text)
  else
    match jsonLoads resp.body_text with
    | none => .error (.protocolDecodeError .jsonDecodeError)
    | some v =>
      match envelopeExtract v with
      | .error e => .error (.protocolDecodeError e)
      | .ok c => .ok c

/-- Method `GPTModel.generate_stream` (src/models/gpt_model.py lines 64-110)
given the response the endpoint returns: non-200 raises the status
`Exception` before anything is yielded; otherwise the chunked body is
buffered into lines and decoded, and an uncaught exception from the loop
body surfaces after the fragments already yielded. -/
def generate_stream (model : GPTModel) (prompt : String) (resp : StreamResponse)
    (callback : Callback) : List Json × Option GPTError :=
  if resp.status ≠ 200 then ([], some (.httpStatusError resp.status resp.body_text))
  else
    match decodeStream resp.chunks with
    | (frags, .crashed e) => (frags, some (.protocolDecodeError e))
    | (frags, _) => (frags, none)

/-- The shape condition under which the delta-extraction chain of
`generate_stream` cannot raise: each expected field is either absent (its
`.get` default applies) or of the expected type — `choices`, when
present, a non-empty array whose first element is an object, and `delta`,
when present, an object.  The `content` value is unconstrained: it is
only truthiness-tested and yielded. -/
def shapeOkB : Json → Bool
  | .obj kvs =>
    match dictLookup kvs ("choices".toList) with
    | none => true
    | some (.arr (.obj ckvs :: _)) =>
      (match dictLookup ckvs ("delta".toList) with
       | none => true
       | some (.obj _) => true
       | some _ => false)
    | some _ => false
  | _ => false

/-- The JSON payload a line submits to `json.loads`, when it is a
non-sentinel `data: ` line. -/
def dataPayload (l : List Char) : Option (List Char) :=
  if pyStrip l = doneToken then none
  else if dataPfx.isPrefixOf (pyStrip l) then some ((pyStrip l).drop 6)
  else none

/-- A line whose payload, when it parses, has the crash-free shape. -/
def parsedShapeOk (l : List Char) : Bool :=
  match dataPayload l with
  | none => true
  | some p =>
    match jsonLoads p with
    | none => true
    | some v => shapeOkB v

/-- A concrete constructed client used by the witnesses. -/
def exModel : GPTModel :=
  { api_key := "k"
    model_name := "gpt-4-turbo"
    api_url := "https://api.openai.com/v1/chat/completions"
    proxy := none }

/-- A well-formed streaming line carrying delta `"a"`. -/
def goodLineA : List Char :=
  "data: \x7b\"choices\": [\x7b\"delta\": \x7b\"content\": \"a\"\x7d\x7d]\x7d\n".toList

/-- A well-formed streaming line carrying delta `"b"`. -/
def goodLineB : List Char :=
  "data: \x7b\"choices\": [\x7b\"delta\": \x7b\"content\": \"b\"\x7d\x7d]\x7d\n".toList

/-- A `data: ` line whose payload is not valid JSON. -/
def badJsonLine : List Char := "data: \x7bnotjson\n".toList

/-- A `data: ` line whose payload is valid JSON but whose `choices` list
is empty. -/
def emptyChoicesLine : List Char := "data: \x7b\"choices\": []\x7d\n".toList

/-- The sentinel line as it arrives on the wire. -/
def doneLineEx : List Char := "data: [DONE]\n".toList

/-- A line carrying no `data: ` prefix (keep-alive noise). -/
def noiseLine : List Char := ": keep-alive\n".toList

/-- A streaming body, as one chunk, in which a syntactically valid
`data: ` line with empty `choices` sits between two well-formed delta
lines. -/
def exC3chunks : List (List Char) :=
  [goodLineA ++ emptyChoicesLine ++ goodLineB ++ doneLineEx]

/-- The bytes of a two-line streaming body delivered whole. -/
def exC2whole : List (List Char) := [goodLineA ++ doneLineEx]

/-- The same bytes as `exC2whole`, split mid-`data: ` prefix and
mid-JSON-payload. -/
def exC2split : List (List Char) :=
  ["da".toList, "ta: \x7b\"choi".toList,
   "ces\": [\x7b\"delta\": \x7b\"content\": \"a\"\x7d\x7d]\x7d\nda".toList,
   "ta: [DONE]\n".toList]

/-- Lines whose payloads parse but lack `choices`, the first choice's
`delta`, or the delta's `content` (or carry an empty content). -/
def exC4lines : List (List Char) :=
  ["data: \x7b\x7d\n".toList,
   "data: \x7b\"choices\": [\x7b\x7d]\x7d\n".toList,
   "data: \x7b\"choices\": [\x7b\"delta\": \x7b\x7d\x7d]\x7d\n".toList,
   "data: \x7b\"choices\": [\x7b\"delta\": \x7b\"content\": \"\"\x7d\x7d]\x7d\n".toList,
   doneLineEx]

/-- The streaming lines of the C3 witness: a `data: ` line with an
invalid JSON payload between two well-formed delta lines. -/
def exC3goodChunks : List (List Char) :=
  [goodLineA ++ badJsonLine ++ goodLineB ++ doneLineEx]

/-- A well-formed buffered envelope body carrying content `"hello"`. -/
def exEnvelopeBody : List Char :=
  "\x7b\"choices\": [\x7b\"message\": \x7b\"content\": \"hello\"\x7d\x7d]\x7d".toList

/-- The parsed inner objects of `exEnvelopeBody`. -/
def exEnvKvs : List (List Char × Json) :=
  [("choices".toList,
    Json.arr [Json.obj [("message".toList,
      Json.obj [("content".toList, Json.str ("hello".toList))])]])]

def exEnvCkvs : List (List Char × Json) :=
  [("message".toList, Json.obj [("content".toList, Json.str ("hello".toList))])]

def exEnvMkvs : List (List Char × Json) :=
  [("content".toList, Json.str ("hello".toList))]

/-! ### Helper lemmas -/

theorem feedOne_eq (chunk : List Char) :
    ∀ (acc t : List Char),
      allLinesAux acc (chunk ++ t) =
        (feedOne acc chunk).1 ++ allLinesAux (feedOne acc chunk).2 t := by
  induction chunk with
  | nil => intro acc t; simp [feedOne]
  | cons c cs ih =>
    intro acc t
    by_cases h : c = '\n' <;> simp [feedOne, allLinesAux, h, ih]

theorem feedList_eq (chunks : List (List Char)) :
    ∀ acc : List Char,
      feedList acc chunks = allLinesAux acc chunks.flatten := by
  induction chunks with
  | nil => intro acc; simp [feedList, allLinesAux]
  | cons chunk rest ih =>
    intro acc
    have h1 : feedList acc (chunk :: rest) =
        (feedOne acc chunk).1 ++ feedList (feedOne acc chunk).2 rest := by
      simp [feedList]
    rw [h1, ih, List.flatten_cons, feedOne_eq]

theorem feedChunks_eq (chunks : List (List Char)) :
    feedChunks chunks = allLines chunks.flatten := by
  simpa [feedChunks, allLines] using feedList_eq chunks []

theorem stepLine_halt_iff (l : List Char) :
    stepLine l = .halt ↔ pyStrip l = doneToken := by
  constructor
  · intro hc
    unfold stepLine at hc
    by_cases h : pyStrip l = doneToken
    · exact h
    · exfalso
      rw [if_neg h] at hc
      by_cases h2 : dataPfx.isPrefixOf (pyStrip l) = true
      · rw [if_pos h2] at hc
        cases hj : jsonLoads (List.drop 6 (pyStrip l)) with
        | none => simp only [hj] at hc; exact LineStep.noConfusion hc
        | some v =>
          simp only [hj] at hc
          cases he : extractDelta v with
          | error e => simp only [he] at hc; exact LineStep.noConfusion hc
          | ok dl =>
            simp only [he] at hc
            by_cases ht : dl.isTruthy = true <;> simp [ht] at hc
      · rw [if_neg h2] at hc; exact LineStep.noConfusion hc
  · intro h
    unfold stepLine
    rw [if_pos h]

theorem stepLine_yield_truthy (l : List Char) (c : Json)
    (h : stepLine l = .yield c) : c.isTruthy = true := by
  unfold stepLine at h
  by_cases h1 : pyStrip l = doneToken
  · rw [if_pos h1] at h; exact LineStep.noConfusion h
  · rw [if_neg h1] at h
    by_cases h2 : dataPfx.isPrefixOf (pyStrip l) = true
    · rw [if_pos h2] at h
      cases hj : jsonLoads (List.drop 6 (pyStrip l)) with
      | none => simp only [hj] at h; exact LineStep.noConfusion h
      | some v =>
        simp only [hj] at h
        cases he : extractDelta v with
        | error e => simp only [he] at h; exact LineStep.noConfusion h
        | ok dl =>
          simp only [he] at h
          by_cases ht : dl.isTruthy = true
          · rw [if_pos ht] at h
            cases h
            exact ht
          · rw [if_neg ht] at h; exact LineStep.noConfusion h
    · rw [if_neg h2] at h; exact LineStep.noConfusion h

theorem lineYield_isSome_yield (l : List Char)
    (h : (lineYield l).isSome = true) : stepLine l = .yield ((lineYield l).getD .null) := by
  unfold lineYield at *
  cases hsl : stepLine l <;> simp [hsl] at h ⊢

theorem filterMap_length_of_isSome {α β : Type} (f : α → Option β) :
    ∀ l : List α, (∀ x ∈ l, (f x).isSome = true) →
      (l.filterMap f).length = l.length := by
  intro l
  induction l with
  | nil => simp
  | cons x xs ih =>
    intro h
    have hx := h x (List.mem_cons_self x xs)
    cases hfx : f x with
    | none => rw [hfx] at hx; simp at hx
    | some b =>
      have hxs := ih (fun y hy => h y (List.mem_cons_of_mem _ hy))
      simp [List.filterMap_cons, hfx, hxs]

theorem decodeLines_append_of_yields (sent : List Char)
    (hs : pyStrip sent = doneToken) (rest : List (List Char)) :
    ∀ lines : List (List Char), (∀ l ∈ lines, (lineYield l).isSome = true) →
      decodeLines (lines ++ sent :: rest) =
        (lines.filterMap lineYield, .doneSentinel) := by
  intro lines
  induction lines with
  | nil =>
    intro _
    have hhalt : stepLine sent = .halt := (stepLine_halt_iff sent).mpr hs
    simp [decodeLines, hhalt]
  | cons l ls ih =>
    intro h
    have hl := h l (List.mem_cons_self l ls)
    have hstep := lineYield_isSome_yield l hl
    have hrest := ih (fun y hy => h y (List.mem_cons_of_mem _ hy))
    cases hy : lineYield l with
    | none => rw [hy] at hl; simp at hl
    | some c =>
      rw [hy] at hstep
      simp only [Option.getD_some] at hstep
      simp [List.cons_append, decodeLines, hstep, hrest, List.filterMap_cons, hy]

theorem stepLine_not_done (l : List Char) (hq : ¬pyStrip l = doneToken) :
    isDoneLine l = false := by
  simp [isDoneLine, hq]

theorem decodeLines_no_crash :
    ∀ lines : List (List Char), (∀ l ∈ lines, lineCrash l = none) →
      (decodeLines lines).1 =
        ((lines.takeWhile fun l => !isDoneLine l).filterMap lineYield) ∧
      ∀ e, (decodeLines lines).2 ≠ .crashed e := by
  intro lines
  induction lines with
  | nil =>
    intro _
    simp [decodeLines]
  | cons l ls ih =>
    intro h
    have hl := h l (List.mem_cons_self l ls)
    have hrest := ih (fun y hy => h y (List.mem_cons_of_mem _ hy))
    cases hsl : stepLine l with
    | halt =>
      have hd : isDoneLine l = true := by
        simp [isDoneLine, (stepLine_halt_iff l).mp hsl]
      simp [decodeLines, hsl, List.takeWhile_cons, hd]
    | skip =>
      have hd : isDoneLine l = false := by
        refine stepLine_not_done l (fun hq => ?_)
        rw [(stepLine_halt_iff l).mpr hq] at hsl
        exact LineStep.noConfusion hsl
      have hy : lineYield l = none := by simp [lineYield, hsl]
      refine ⟨?_, ?_⟩
      · simp [decodeLines, hsl, List.takeWhile_cons, hd, List.filterMap_cons, hy,
          hrest.1]
      · simpa [decodeLines, hsl] using hrest.2
    | crash e =>
      unfold lineCrash at hl
      rw [hsl] at hl
      simp at hl
    | yield c =>
      have hd : isDoneLine l = false := by
        refine stepLine_not_done l (fun hq => ?_)
        rw [(stepLine_halt_iff l).mpr hq] at hsl
        exact LineStep.noConfusion hsl
      have hy : lineYield l = some c := by simp [lineYield, hsl]
      refine ⟨?_, ?_⟩
      · simp [decodeLines, hsl, List.takeWhile_cons, hd, List.filterMap_cons, hy,
          hrest.1]
      · simpa [decodeLines, hsl] using hrest.2

theorem decodeLines_never_yields_empty :
    ∀ lines : List (List Char), Json.str [] ∉ (decodeLines lines).1 := by
  intro lines
  induction lines with
  | nil => simp [decodeLines]
  | cons l ls ih =>
    cases hsl : stepLine l with
    | halt => simp [decodeLines, hsl]
    | skip => simpa [decodeLines, hsl] using ih
    | crash e => simp [decodeLines, hsl]
    | yield c =>
      have ht := stepLine_yield_truthy l c hsl
      have hne : c ≠ Json.str [] := by
        intro hcc
        rw [hcc] at ht
        simp [Json.isTruthy] at ht
      have hd : decodeLines (l :: ls) = (c :: (decodeLines ls).1, (decodeLines ls).2) := by
        simp [decodeLines, hsl]
      rw [hd]
      intro hmem
      rw [List.mem_cons] at hmem
      cases hmem with
      | inl hx => exact hne hx.symm
      | inr hx => exact ih hx

theorem dictGet_eq (kvs : List (List Char × Json)) (k : List Char) (d : Json) :
    dictGet kvs k d = (dictLookup kvs k).getD d := rfl

theorem extractDelta_obj (kvs : List (List Char × Json)) :
    extractDelta (Json.obj kvs) =
      (match pySubscriptZero (dictGet kvs ("choices".toList) (.arr [.obj []])) with
       | .error e => .error e
       | .ok x =>
         match pyGetAttr x ("delta".toList) (.obj []) with
         | .error e => .error e
         | .ok dl => pyGetAttr dl ("content".toList) (.str [])) := rfl

theorem extractDelta_ok_of_shapeOk (v : Json) (h : shapeOkB v = true) :
    ∀ e, extractDelta v ≠ .error e := by
  intro e
  cases v with
  | null => exact Bool.noConfusion h
  | bool b => exact Bool.noConfusion h
  | num lx => exact Bool.noConfusion h
  | str s => exact Bool.noConfusion h
  | arr xs => exact Bool.noConfusion h
  | obj kvs =>
    cases hlv : dictLookup kvs ("choices".toList) with
    | none =>
      have hg : dictGet kvs ("choices".toList) (Json.arr [Json.obj []]) =
          Json.arr [Json.obj []] := by
        rw [dictGet_eq, hlv]
        rfl
      rw [extractDelta_obj, hg]
      intro hc
      exact Except.noConfusion hc
    | some v2 =>
      have h2 : (match dictLookup kvs ("choices".toList) with
          | none => true
          | some (.arr (.obj ckvs :: _)) =>
            (match dictLookup ckvs ("delta".toList) with
             | none => true
             | some (.obj _) => true
             | some _ => false)
          | some _ => false) = true := h
      rw [hlv] at h2
      cases v2 with
      | null => exact Bool.noConfusion (show false = true from h2)
      | bool b => exact Bool.noConfusion (show false = true from h2)
      | num lx => exact Bool.noConfusion (show false = true from h2)
      | str s => exact Bool.noConfusion (show false = true from h2)
      | obj okvs => exact Bool.noConfusion (show false = true from h2)
      | arr xs =>
        cases xs with
        | nil => exact Bool.noConfusion (show false = true from h2)
        | cons x t =>
          cases x with
          | null => exact Bool.noConfusion (show false = true from h2)
          | bool b => exact Bool.noConfusion (show false = true from h2)
          | num lx => exact Bool.noConfusion (show false = true from h2)
          | str s => exact Bool.noConfusion (show false = true from h2)
          | arr ys => exact Bool.noConfusion (show false = true from h2)
          | obj ckvs =>
            have hg : dictGet kvs ("choices".toList) (Json.arr [Json.obj []]) =
                Json.arr (Json.obj ckvs :: t) := by
              rw [dictGet_eq, hlv]
              rfl
            have h3 : (match dictLookup ckvs ("delta".toList) with
                | none => true
                | some (.obj _) => true
                | some _ => false) = true := h2
            cases hld : dictLookup ckvs ("delta".toList) with
            | none =>
              have hg2 : dictGet ckvs ("delta".toList) (Json.obj []) = Json.obj [] := by
                rw [dictGet_eq, hld]
                rfl
              rw [extractDelta_obj, hg]
              have hga : pyGetAttr (Json.obj ckvs) ("delta".toList) (Json.obj []) =
                  .ok (Json.obj []) := by
                show Except.ok (dictGet ckvs ("delta".toList) (Json.obj [])) = _
                rw [hg2]
              show (match pyGetAttr (Json.obj ckvs) ("delta".toList) (Json.obj []) with
                    | .error e => Except.error e
                    | .ok dl => pyGetAttr dl ("content".toList) (.str [])) ≠
                  Except.error e
              rw [hga]
              intro hc
              exact Except.noConfusion hc
            | some dv =>
              rw [hld] at h3
              cases dv with
              | null => exact Bool.noConfusion (show false = true from h3)
              | bool b => exact Bool.noConfusion (show false = true from h3)
              | num lx => exact Bool.noConfusion (show false = true from h3)
              | str s => exact Bool.noConfusion (show false = true from h3)
              | arr ys => exact Bool.noConfusion (show false = true from h3)
              | obj dkvs =>
                have hg2 : dictGet ckvs ("delta".toList) (Json.obj []) =
                    Json.obj dkvs := by
                  rw [dictGet_eq, hld]
                  rfl
                rw [extractDelta_obj, hg]
                have hga : pyGetAttr (Json.obj ckvs) ("delta".toList) (Json.obj []) =
                    .ok (Json.obj dkvs) := by
                  show Except.ok (dictGet ckvs ("delta".toList) (Json.obj [])) = _
                  rw [hg2]
                show (match pyGetAttr (Json.obj ckvs) ("delta".toList) (Json.obj []) with
                      | .error e => Except.error e
                      | .ok dl => pyGetAttr dl ("content".toList) (.str [])) ≠
                    Except.error e
                rw [hga]
                intro hc
                exact Except.noConfusion hc

theorem lineCrash_none_of_parsedShapeOk (l : List Char)
    (h : parsedShapeOk l = true) : lineCrash l = none := by
  unfold parsedShapeOk dataPayload at h
  unfold lineCrash stepLine
  by_cases h1 : pyStrip l = doneToken
  · simp [h1]
  · rw [if_neg h1] at h ⊢
    by_cases h2 : dataPfx.isPrefixOf (pyStrip l) = true
    · rw [if_pos h2] at h ⊢
      simp only [] at h
      cases hj : jsonLoads (List.drop 6 (pyStrip l)) with
      | none => simp [hj]
      | some v =>
        simp only [hj] at h ⊢
        cases he : extractDelta v with
        | error e2 => exact absurd he (extractDelta_ok_of_shapeOk v h e2)
        | ok dl =>
          by_cases ht : dl.isTruthy = true <;> simp [he, ht]
    · rw [if_neg h2]

/-! ### Claim theorems -/

/-- C5: for every prompt and every response with a non-success HTTP
status, both `generate` and `generate_stream` raise the status error
carrying that exact status code together with the full response body
text, and the raised exception's message embeds both verbatim. -/
theorem non_success_status_raises_http_status_error
    (model : GPTModel) (prompt : String) (cb : Callback)
    (resp : BufferedResponse) (sresp : StreamResponse)
    (hb : resp.status ≠ 200) (hs : sresp.status ≠ 200) :
    generate model prompt resp cb =
      .error (.httpStatusError resp.status resp.body_text) ∧
    generate_stream model prompt sresp cb =
      ([], some (.httpStatusError sresp.status sresp.body_text)) ∧
    toRaised (.httpStatusError resp.status resp.body_text) =
      ⟨.exception, "OpenAI API错误: ".toList ++ (Nat.repr resp.status).toList ++
        " - ".toList ++ resp.body_text⟩ := by
  refine ⟨?_, ?_, rfl⟩
  · simp [generate, hb]
  · simp [generate_stream, hs]

theorem non_success_status_raises_http_status_error_witness :
    ((401 : Nat) ≠ 200) ∧
    generate exModel "p" ⟨401, "denied".toList⟩ none =
      .error (.httpStatusError 401 "denied".toList) ∧
    generate_stream exModel "p" ⟨401, "denied".toList, []⟩ none =
      ([], some (.httpStatusError 401 "denied".toList)) := by
  refine ⟨by decide, ?_, ?_⟩
  · exact (non_success_status_raises_http_status_error exModel "p" none
      ⟨401, "denied".toList⟩ ⟨401, "denied".toList, []⟩
      (by decide) (by decide)).1
  · exact (non_success_status_raises_http_status_error exModel "p" none
      ⟨401, "denied".toList⟩ ⟨401, "denied".toList, []⟩
      (by decide) (by decide)).2.1

/-- C6: constructing the client with an empty or missing API key fails
with the configuration error (a `ValueError`) at construction time; the
constructor performs no network interaction and never substitutes a
default key. -/
theorem init_missing_api_key_fails (cfg : ConfigManager)
    (h : cfg.api_key = none ∨ cfg.api_key = some "") :
    GPTModel.init cfg = .error .configurationError ∧
    toRaised .configurationError =
      ⟨.valueError, "OpenAI API密钥未配置".toList⟩ := by
  refine ⟨?_, rfl⟩
  rcases h with h | h <;> simp [GPTModel.init, optFalsy, h, String.isEmpty]

theorem init_missing_api_key_fails_witness :
    ((⟨none, none, none⟩ : ConfigManager).api_key = none ∨
      (⟨none, none, none⟩ : ConfigManager).api_key = some "") ∧
    GPTModel.init ⟨none, none, none⟩ = .error .configurationError :=
  ⟨Or.inl rfl, (init_missing_api_key_fails ⟨none, none, none⟩ (Or.inl rfl)).1⟩

/-- C7: on the buffered path, a 200 response whose parsed JSON envelope
does not extract (missing `choices`, first choice, `message` or
`content`, or a wrongly-typed value) makes `generate` fail with the
protocol-decode kind carrying the exception the extraction raises,
rather than anything unclassified. -/
theorem generate_bad_envelope_is_protocol_decode_error
    (model : GPTModel) (prompt : String) (cb : Callback)
    (resp : BufferedResponse) (v : Json) (e : DecodeExc)
    (h200 : resp.status = 200)
    (hparse : jsonLoads resp.body_text = some v)
    (hbad : envelopeExtract v = .error e) :
    generate model prompt resp cb = .error (.protocolDecodeError e) := by
  simp [generate, h200, hparse, hbad]

theorem generate_bad_envelope_is_protocol_decode_error_witness :
    ((200 : Nat) = 200) ∧
    jsonLoads ("\x7b\x7d".toList) = some (Json.obj []) ∧
    envelopeExtract (Json.obj []) = .error .keyError ∧
    generate exModel "p" ⟨200, "\x7b\x7d".toList⟩ none =
      .error (.protocolDecodeError .keyError) :=
  ⟨rfl, rfl, rfl,
    generate_bad_envelope_is_protocol_decode_error exModel "p" none
      ⟨200, "\x7b\x7d".toList⟩ (Json.obj []) .keyError rfl rfl rfl⟩

/-- C8: the four error kinds are pairwise distinguishable by the caller:
the exact Python class of the raised exception alone recovers the kind
(`ValueError` for configuration, the bare `Exception` for HTTP status,
the aiohttp client error for transport, and the uncaught
attribute/index/key/type/JSON-decode exceptions for protocol decode). -/
theorem error_kinds_distinguishable :
    ∀ err : GPTError, classifyRaised (toRaised err) = err.kind := by
  intro err
  cases err with
  | configurationError => rfl
  | httpStatusError s b => rfl
  | transportError => rfl
  | protocolDecodeError e => cases e <;> rfl

/-- C10: the results of `generate` and `generate_stream` are independent
of the callback argument: the parameter is accepted and never used, so
two runs differing only in the callback agree exactly. -/
theorem callback_never_affects_results
    (model : GPTModel) (prompt : String) (resp : BufferedResponse)
    (sresp : StreamResponse) (cb1 cb2 : Callback) :
    generate model prompt resp cb1 = generate model prompt resp cb2 ∧
    generate_stream model prompt sresp cb1 =
      generate_stream model prompt sresp cb2 :=
  ⟨rfl, rfl⟩

/-- C9: for every non-empty prompt and a 200 response whose body parses
to a well-formed envelope (an object whose `choices` is a non-empty
array of objects, whose first choice's `message` is an object carrying a
string `content`), `generate` returns exactly that nested content
string; and a client constructed with an unset model name sends the
default model constant `"gpt-4-turbo"` in its request. -/
theorem generate_returns_content_and_default_model
    (cfg : ConfigManager) (model : GPTModel) (prompt : String) (cb : Callback)
    (resp : BufferedResponse) (kvs ckvs mkvs : List (List Char × Json))
    (tl : List Json) (s : List Char)
    (hprompt : prompt ≠ "")
    (h200 : resp.status = 200)
    (hparse : jsonLoads resp.body_text = some (Json.obj kvs))
    (hch : dictLookup kvs ("choices".toList) =
      some (.arr (Json.obj ckvs :: tl)))
    (hm : dictLookup ckvs ("message".toList) = some (.obj mkvs))
    (hc : dictLookup mkvs ("content".toList) = some (.str s)) :
    generate model prompt resp cb = .ok (.str s) ∧
    (GPTModel.init cfg = .ok model → optFalsy cfg.model_name = true →
      (buildRequest model prompt false).model = "gpt-4-turbo") := by
  constructor
  · have p1 : pySubscriptKey (Json.obj kvs) ("choices".toList) =
        .ok (.arr (Json.obj ckvs :: tl)) := by
      show (match dictLookup kvs ("choices".toList) with
            | some x => (Except.ok x : Except DecodeExc Json)
            | none => Except.error DecodeExc.keyError) = _
      rw [hch]
    have p2 : pySubscriptKey (Json.obj ckvs) ("message".toList) =
        .ok (.obj mkvs) := by
      show (match dictLookup ckvs ("message".toList) with
            | some x => (Except.ok x : Except DecodeExc Json)
            | none => Except.error DecodeExc.keyError) = _
      rw [hm]
    have p3 : pySubscriptKey (Json.obj mkvs) ("content".toList) =
        .ok (.str s) := by
      show (match dictLookup mkvs ("content".toList) with
            | some x => (Except.ok x : Except DecodeExc Json)
            | none => Except.error DecodeExc.keyError) = _
      rw [hc]
    have he : envelopeExtract (Json.obj kvs) = .ok (.str s) := by
      unfold envelopeExtract
      rw [p1]
      show (match pySubscriptKey (Json.obj ckvs) ("message".toList) with
            | .error e => (Except.error e : Except DecodeExc Json)
            | .ok m => pySubscriptKey m ("content".toList)) = .ok (.str s)
      rw [p2]
      show pySubscriptKey (Json.obj mkvs) ("content".toList) = .ok (.str s)
      exact p3
    simp [generate, h200, hparse, he]
  · intro hinit hmn
    unfold GPTModel.init at hinit
    by_cases hak : optFalsy cfg.api_key = true
    · rw [if_pos hak] at hinit
      exact Except.noConfusion hinit
    · rw [if_neg hak] at hinit
      simp only [Except.ok.injEq] at hinit
      rw [← hinit]
      simp [buildRequest, hmn]

theorem generate_returns_content_and_default_model_witness :
    (("hi" : String) ≠ "") ∧
    ((200 : Nat) = 200) ∧
    jsonLoads exEnvelopeBody = some (Json.obj exEnvKvs) ∧
    dictLookup exEnvKvs ("choices".toList) =
      some (.arr (Json.obj exEnvCkvs :: [])) ∧
    dictLookup exEnvCkvs ("message".toList) = some (.obj exEnvMkvs) ∧
    dictLookup exEnvMkvs ("content".toList) =
      some (.str ("hello".toList)) ∧
    GPTModel.init ⟨some "k", none, none⟩ = .ok exModel ∧
    optFalsy (⟨some "k", none, none⟩ : ConfigManager).model_name = true ∧
    generate exModel "hi" ⟨200, exEnvelopeBody⟩ none =
      .ok (.str ("hello".toList)) ∧
    (buildRequest exModel "hi" false).model = "gpt-4-turbo" := by
  refine ⟨by decide, rfl, rfl, rfl, rfl, rfl, rfl, rfl, ?_, ?_⟩
  · exact (generate_returns_content_and_default_model
      ⟨some "k", none, none⟩ exModel "hi" none ⟨200, exEnvelopeBody⟩
      exEnvKvs exEnvCkvs exEnvMkvs [] ("hello".toList)
      (by decide) rfl rfl rfl rfl rfl).1
  · exact (generate_returns_content_and_default_model
      ⟨some "k", none, none⟩ exModel "hi" none ⟨200, exEnvelopeBody⟩
      exEnvKvs exEnvCkvs exEnvMkvs [] ("hello".toList)
      (by decide) rfl rfl rfl rfl rfl).2 rfl rfl

/-- C1: when the decoded line stream consists of lines each carrying a
well-formed payload with a truthy delta, followed by the `data: [DONE]`
sentinel and arbitrary further lines, `generate_stream` yields exactly
one fragment per line, in line order, and terminates cleanly: the
sentinel stops decoding immediately whatever follows it on the wire. -/
theorem generate_stream_yields_all_fragments_then_done
    (model : GPTModel) (prompt : String) (body : List Char) (cb : Callback)
    (chunks : List (List Char)) (lines : List (List Char))
    (sent : List Char) (rest : List (List Char))
    (hfeed : feedChunks chunks = lines ++ sent :: rest)
    (hgood : ∀ l ∈ lines, (lineYield l).isSome = true)
    (hsent : pyStrip sent = doneToken) :
    generate_stream model prompt ⟨200, body, chunks⟩ cb =
      (lines.filterMap lineYield, none) ∧
    (lines.filterMap lineYield).length = lines.length := by
  have hdec := decodeLines_append_of_yields sent hsent rest lines hgood
  refine ⟨?_, filterMap_length_of_isSome lineYield lines hgood⟩
  simp [generate_stream, decodeStream, hfeed, hdec]

theorem generate_stream_yields_all_fragments_then_done_witness :
    feedChunks [goodLineA, goodLineB, doneLineEx, goodLineA] =
      [goodLineA, goodLineB] ++ doneLineEx :: [goodLineA] ∧
    (∀ l ∈ [goodLineA, goodLineB], (lineYield l).isSome = true) ∧
    pyStrip doneLineEx = doneToken ∧
    generate_stream exModel "p"
        ⟨200, [], [goodLineA, goodLineB, doneLineEx, goodLineA]⟩ none =
      ([goodLineA, goodLineB].filterMap lineYield, none) ∧
    ([goodLineA, goodLineB].filterMap lineYield).length =
      [goodLineA, goodLineB].length := by
  refine ⟨rfl, by decide, by decide, ?_⟩
  exact generate_stream_yields_all_fragments_then_done exModel "p" [] none
    [goodLineA, goodLineB, doneLineEx, goodLineA] [goodLineA, goodLineB]
    doneLineEx [goodLineA] rfl (by decide) (by decide)

/-- C2: the streaming decoder's output depends only on the concatenated
bytes of the body: any two chunkings of the same bytes — including splits
inside the `data: ` prefix or inside the JSON payload — reassemble into
the same logical lines and yield identical fragments, none lost or
duplicated. -/
theorem generate_stream_chunking_invariant
    (model : GPTModel) (prompt : String) (status : Nat) (body : List Char)
    (cb : Callback) (chunks chunks' : List (List Char))
    (h : chunks.flatten = chunks'.flatten) :
    generate_stream model prompt ⟨status, body, chunks⟩ cb =
      generate_stream model prompt ⟨status, body, chunks'⟩ cb := by
  unfold generate_stream
  simp only [decodeStream, feedChunks_eq, h]

theorem generate_stream_chunking_invariant_witness :
    exC2whole.flatten = exC2split.flatten ∧
    generate_stream exModel "p" ⟨200, [], exC2whole⟩ none =
      generate_stream exModel "p" ⟨200, [], exC2split⟩ none ∧
    generate_stream exModel "p" ⟨200, [], exC2whole⟩ none =
      ([Json.str ['a']], none) := by
  refine ⟨by decide, ?_, rfl⟩
  exact generate_stream_chunking_invariant exModel "p" 200 [] none
    exC2whole exC2split (by decide)

/-- C3 counterexample: a streaming body whose `data: ` lines are all
syntactically valid JSON carries two non-empty-content lines, yet
`generate_stream` yields only one fragment and then raises (the middle
line's payload parses to an object with an empty `choices` list, and the
extraction's IndexError is not the caught `json.JSONDecodeError`), so a
protocol-decode failure is raised and the fragment count differs from
the number of valid non-empty-content lines. -/
theorem stream_crash_breaks_valid_line_count :
    generate_stream exModel "p" ⟨200, [], exC3chunks⟩ none =
      ([Json.str ['a']], some (.protocolDecodeError .indexError)) ∧
    ((feedChunks exC3chunks).filterMap lineYield).length = 2 ∧
    (generate_stream exModel "p" ⟨200, [], exC3chunks⟩ none).1.length ≠
      ((feedChunks exC3chunks).filterMap lineYield).length := by
  refine ⟨rfl, rfl, by decide⟩

/-- C3 amended: an invalid-JSON `data: ` line is skipped silently and
decoding continues, and provided every line's payload extraction is
crash-free, `generate_stream` on a 200 response raises no error at all —
in particular no protocol-decode failure — and yields exactly the
fragments of the valid truthy-content lines before the sentinel, in
order. -/
theorem generate_stream_counts_valid_lines_when_no_crash
    (model : GPTModel) (prompt : String) (body : List Char) (cb : Callback)
    (chunks : List (List Char))
    (h : ∀ l ∈ feedChunks chunks, lineCrash l = none) :
    generate_stream model prompt ⟨200, body, chunks⟩ cb =
      (((feedChunks chunks).takeWhile fun l => !isDoneLine l).filterMap
        lineYield, none) := by
  have hd := decodeLines_no_crash (feedChunks chunks) h
  have h200 : ¬((200 : Nat) ≠ 200) := by simp
  unfold generate_stream decodeStream
  rw [if_neg h200]
  rcases hdl : decodeLines (feedChunks chunks) with ⟨fs, en⟩
  rw [hdl] at hd
  cases en with
  | crashed e => exact absurd rfl (hd.2 e)
  | doneSentinel =>
    show ((fs, none) : List Json × Option GPTError) = _
    rw [show fs = _ from hd.1]
  | exhausted =>
    show ((fs, none) : List Json × Option GPTError) = _
    rw [show fs = _ from hd.1]

theorem generate_stream_counts_valid_lines_when_no_crash_witness :
    (∀ l ∈ feedChunks exC3goodChunks, lineCrash l = none) ∧
    generate_stream exModel "p" ⟨200, [], exC3goodChunks⟩ none =
      (((feedChunks exC3goodChunks).takeWhile fun l => !isDoneLine l).filterMap
        lineYield, none) ∧
    generate_stream exModel "p" ⟨200, [], exC3goodChunks⟩ none =
      ([Json.str ['a'], Json.str ['b']], none) := by
  refine ⟨by decide, ?_, rfl⟩
  exact generate_stream_counts_valid_lines_when_no_crash exModel "p" [] none
    exC3goodChunks (by decide)

/-- C4 counterexample: the line `data: \x7b"choices": []\x7d` parses successfully yet
lacks the first choice carrying `delta`, and the decoder crashes with an
IndexError instead of skipping the line. -/
theorem decode_crashes_on_empty_choices :
    jsonLoads (List.drop 6 (pyStrip emptyChoicesLine)) =
      some (Json.obj [("choices".toList, Json.arr [])]) ∧
    decodeLines [emptyChoicesLine] = ([], .crashed .indexError) :=
  ⟨rfl, rfl⟩

/-- C4 amended: a `data: ` line whose JSON parses to an object in which
each expected field is absent or of the expected type — `choices`, when
present, a non-empty array whose first element is an object, and
`delta`, when present, an object — never crashes the decoder: absent or
empty content is skipped without yielding, and an empty-string delta is
never yielded to the consumer. -/
theorem decode_no_crash_when_parsed_shapes_ok
    (lines : List (List Char))
    (h : ∀ l ∈ lines, parsedShapeOk l = true) :
    (∀ e, (decodeLines lines).2 ≠ .crashed e) ∧
    Json.str [] ∉ (decodeLines lines).1 :=
  ⟨(decodeLines_no_crash lines
      (fun l hl => lineCrash_none_of_parsedShapeOk l (h l hl))).2,
    decodeLines_never_yields_empty lines⟩

theorem decode_no_crash_when_parsed_shapes_ok_witness :
    (∀ l ∈ exC4lines, parsedShapeOk l = true) ∧
    ((∀ e, (decodeLines exC4lines).2 ≠ .crashed e) ∧
      Json.str [] ∉ (decodeLines exC4lines).1) ∧
    decodeLines exC4lines = ([], .doneSentinel) := by
  refine ⟨by decide, ?_, rfl⟩
  exact decode_no_crash_when_parsed_shapes_ok exC4lines (by decide)
